import Mathlib

/-!
Shallow embedding of the authentication and session-token subsystem of the
finance-ai-mockup backend (`src/be`).  Time is modelled as unix seconds
(`Nat`).  The database session is modelled as an explicit `DB` value holding
the `users` and `refresh_tokens` tables as lists in insertion order;
SQLModel's `.first()` becomes `List.find?`.
-/

set_option autoImplicit false

namespace Be

/-! ### Configuration (`be/core/config.py`) -/

def SECRET_KEY : String := "your-secret-key-change-in-production-please"

def ACCESS_TOKEN_EXPIRE_MINUTES : Nat := 15

def REFRESH_TOKEN_EXPIRE_DAYS : Nat := 7

/-! ### JWT model (python-jose, HS256)

A JWT value is either a well-formed token signed with some key, or a
malformed string that no decoder accepts.  `jwt.decode` verifies the
signature and the `exp` claim (python-jose raises `ExpiredSignatureError`,
a subclass of `JWTError`, when `exp < now`); all decode failures are
`JWTError`s. -/

/-- Payload of a signed token.  `type` is `payload.get("type")`: it may be
absent on tokens produced outside this codebase. -/
structure JwtPayload where
  sub : String
  username : String
  type : Option String
  iat : Nat
  exp : Nat
deriving DecidableEq

inductive Jwt where
  | signed (payload : JwtPayload) (key : String)
  | malformed (s : String)
deriving DecidableEq

/-- The `JWTError` hierarchy of python-jose that `jwt.decode` can raise. -/
inductive JwtError where
  | decodeError
  | signatureInvalid
  | expiredSignature
deriving DecidableEq

/-- Model of `jose.jwt.decode(token, key, algorithms=[ALGORITHM])`:
rejects malformed tokens and wrong signatures and (by default) validates
the `exp` claim against the current time. -/
def jwtDecode (tok : Jwt) (key : String) (now : Nat) : Except JwtError JwtPayload :=
  match tok with
  | .malformed _ => .error .decodeError
  | .signed p k =>
    if k ≠ key then .error .signatureInvalid
    else if p.exp < now then .error .expiredSignature
    else .ok p

/-- Model of `jose.jwt.encode(payload, key, algorithm=ALGORITHM)`. -/
def jwtEncode (p : JwtPayload) (key : String) : Jwt := .signed p key

/-! ### Credential hashing (passlib `CryptContext(schemes=["bcrypt"])`)

A digest is either a self-describing salted bcrypt hash or a string that no
configured passlib scheme identifies.  One-wayness is abstracted away (the
model digest retains the password); what matters to the spec is the verify
relation and passlib's error behaviour: per the passlib documentation,
`CryptContext.verify` raises `UnknownHashError` (a `ValueError`) when the
hash string cannot be identified — it does not return False. -/

inductive Digest where
  | bcrypt (salt : Nat) (pw : String)
  | malformed (s : String)
deriving DecidableEq

inductive PasslibError where
  | unknownHash
deriving DecidableEq

/-- Model of `CryptContext.hash`: a fresh salt is drawn by the caller. -/
def cryptContext_hash (salt : Nat) (password : String) : Digest :=
  .bcrypt salt password

/-- Model of `CryptContext.verify`: identifies the scheme from the digest;
raises `UnknownHashError` when it cannot. -/
def cryptContext_verify (plain : String) (hashed : Digest) : Except PasslibError Bool :=
  match hashed with
  | .bcrypt _ pw => .ok (pw == plain)
  | .malformed _ => .error .unknownHash

/-! ### `be/core/security.py` -/

/-- `verify_password(plain, hashed)` — delegates to `pwd_context.verify`. -/
def verify_password (plain : String) (hashed : Digest) : Except PasslibError Bool :=
  cryptContext_verify plain hashed

/-- `hash_password(password)` — delegates to `pwd_context.hash`; the salt
drawn internally by passlib is made explicit. -/
def hash_password (salt : Nat) (password : String) : Digest :=
  cryptContext_hash salt password

/-- The `data` dict passed by the routers to the token factories. -/
structure TokenData where
  sub : String
  username : String
deriving DecidableEq

/-- `create_access_token(data, expires)`.  The two `datetime.utcnow()`
calls inside one invocation are idealised to the single instant `now`;
`expires` is in seconds, defaulting to `ACCESS_TOKEN_EXPIRE_MINUTES`. -/
def create_access_token (data : TokenData) (now : Nat) (expires : Option Nat) : Jwt :=
  jwtEncode
    { sub := data.sub, username := data.username, type := some "access",
      iat := now, exp := now + expires.getD (ACCESS_TOKEN_EXPIRE_MINUTES * 60) }
    SECRET_KEY

/-- `create_refresh_token(data, expires)`; default TTL is
`REFRESH_TOKEN_EXPIRE_DAYS`. -/
def create_refresh_token (data : TokenData) (now : Nat) (expires : Option Nat) : Jwt :=
  jwtEncode
    { sub := data.sub, username := data.username, type := some "refresh",
      iat := now, exp := now + expires.getD (REFRESH_TOKEN_EXPIRE_DAYS * 24 * 60 * 60) }
    SECRET_KEY

/-- `_hash_token(token)` — sha256 hexdigest of the raw token string.
sha256 on the compact JWT serialisation is modelled as an injective map,
so the stored hash is represented by the token value itself: two raw
tokens have equal hashes exactly when they are the same token string. -/
def hash_token (token : Jwt) : Jwt := token

/-- `verify_token(token, expected_type)`. -/
def verify_token (token : Jwt) (expected_type : String) (now : Nat) : Option JwtPayload :=
  match jwtDecode token SECRET_KEY now with
  | .error _ => none
  | .ok payload =>
    if payload.type ≠ some expected_type then none
    else some payload

/-! ### Data model (`be/models`) -/

/-- `users` table row.  `id` is the storage-assigned primary key. -/
structure User where
  id : Nat
  username : String
  email : String
  password_hash : Digest
  full_name : Option String
  created_at : Nat
  is_active : Bool
deriving DecidableEq

/-- `refresh_tokens` table row.  The surrogate primary key plays no role in
any modelled operation and is omitted. -/
structure RefreshToken where
  user_id : Nat
  token_hash : Jwt
  expires_at : Nat
  created_at : Nat
  is_revoked : Bool
deriving DecidableEq

/-- The database session: both tables, rows in insertion order. -/
structure DB where
  users : List User
  tokens : List RefreshToken
deriving DecidableEq

/-- `authenticate_user(session, username, password)`.  The Python `and`
chain short-circuits, so passlib errors surface only when an active user
with a malformed stored digest is found. -/
def authenticate_user (db : DB) (username password : String) :
    Except PasslibError (Option User) :=
  match db.users.find? (fun u => u.username == username) with
  | none => .ok none
  | some user =>
    if user.is_active then
      match verify_password password user.password_hash with
      | .error e => .error e
      | .ok true => .ok (some user)
      | .ok false => .ok none
    else .ok none

/-- `store_refresh_token(session, user_id, refresh_token)` — decodes the
token (outside any try, so `JWTError` propagates) and inserts a row with
`expires_at = payload["exp"]`, `is_revoked` defaulted to false. -/
def store_refresh_token (db : DB) (user_id : Nat) (tok : Jwt) (now : Nat) :
    Except JwtError DB :=
  match jwtDecode tok SECRET_KEY now with
  | .error e => .error e
  | .ok payload =>
    .ok { db with tokens := db.tokens ++
      [{ user_id := user_id, token_hash := hash_token tok,
         expires_at := payload.exp, created_at := now, is_revoked := false }] }

/-- `verify_refresh_token(session, refresh_token)` — the store-level
`resolve`: decode, check the type discriminator, then look up the first
row whose hash matches with `is_revoked == False` and `expires_at > now`,
and load its owning user. -/
def verify_refresh_token (db : DB) (tok : Jwt) (now : Nat) : Option User :=
  match jwtDecode tok SECRET_KEY now with
  | .error _ => none
  | .ok payload =>
    if payload.type ≠ some "refresh" then none
    else
      match db.tokens.find? (fun r =>
          r.token_hash == hash_token tok && !r.is_revoked &&
          decide (now < r.expires_at)) with
      | none => none
      | some db_token => db.users.find? (fun u => u.id == db_token.user_id)

/-- Marks the first row whose `token_hash` matches as revoked; `none` when
no row matches.  This is the row update performed by SQLModel's
`.first()` + `db_token.is_revoked = True`. -/
def revokeFirst (h : Jwt) : List RefreshToken → Option (List RefreshToken)
  | [] => none
  | r :: rs =>
    if r.token_hash == h then some ({ r with is_revoked := true } :: rs)
    else (revokeFirst h rs).map (fun rs' => r :: rs')

/-- `revoke_refresh_token(session, refresh_token)` — note the lookup is by
hash alone, with no `is_revoked` filter: an already-revoked row is found,
re-marked, and reported as success. -/
def revoke_refresh_token (db : DB) (tok : Jwt) : DB × Bool :=
  match revokeFirst (hash_token tok) db.tokens with
  | some ts => ({ db with tokens := ts }, true)
  | none => (db, false)

/-! ### Schemas (`be/schemas/__init__.py`) -/

/-- `UserOut` — the public user projection. -/
structure UserOut where
  id : Nat
  username : String
  email : String
  full_name : Option String
  created_at : Nat
  is_active : Bool
deriving DecidableEq

/-- `UserOut.from_orm` / `UserOut.model_validate`: pydantic populates each
declared field from the attribute of the same name. -/
def UserOut.from_orm (u : User) : UserOut :=
  { id := u.id, username := u.username, email := u.email,
    full_name := u.full_name, created_at := u.created_at,
    is_active := u.is_active }

structure TokenResponse where
  access_token : Jwt
  refresh_token : Jwt
  token_type : String
  expires_in : Nat
deriving DecidableEq

structure UserProfileResponse where
  user : UserOut
deriving DecidableEq

/-! ### Router (`be/routers/auth.py`)

`HTTPException(status_code, detail)` and exceptions propagating from the
libraries are the error outcomes of each endpoint. -/

structure HttpError where
  status_code : Nat
  detail : String
deriving DecidableEq

inductive Err where
  | http (e : HttpError)
  | passlib (e : PasslibError)
  | jwt (e : JwtError)
deriving DecidableEq

/-- `POST /auth/register` (after pydantic request validation).  The fresh
primary key `new_id` and the bcrypt salt are storage/entropy inputs. -/
def register (db : DB) (username email password : String)
    (full_name : Option String) (salt new_id now : Nat) :
    Except Err (DB × UserOut) :=
  if (db.users.find? (fun u => u.username == username)).isSome then
    .error (.http { status_code := 409, detail := "Username already registered" })
  else if (db.users.find? (fun u => u.email == email)).isSome then
    .error (.http { status_code := 409, detail := "Email already registered" })
  else
    let db_user : User :=
      { id := new_id, username := username, email := email,
        password_hash := hash_password salt password, full_name := full_name,
        created_at := now, is_active := true }
    .ok ({ db with users := db.users ++ [db_user] }, UserOut.from_orm db_user)

/-- `POST /auth/login`. -/
def login (db : DB) (username password : String) (now : Nat) :
    Except Err (DB × TokenResponse) :=
  match authenticate_user db username password with
  | .error e => .error (.passlib e)
  | .ok none =>
    .error (.http { status_code := 400, detail := "Incorrect username or password" })
  | .ok (some user) =>
    let access_token :=
      create_access_token { sub := toString user.id, username := user.username }
        now (some (ACCESS_TOKEN_EXPIRE_MINUTES * 60))
    let refresh_tok :=
      create_refresh_token { sub := toString user.id, username := user.username }
        now none
    match store_refresh_token db user.id refresh_tok now with
    | .error e => .error (.jwt e)
    | .ok db' =>
      .ok (db',
        { access_token := access_token, refresh_token := refresh_tok,
          token_type := "bearer",
          expires_in := ACCESS_TOKEN_EXPIRE_MINUTES * 60 })

/-- `POST /auth/refresh`. -/
def refresh_token (db : DB) (tok : Jwt) (now : Nat) : Except Err TokenResponse :=
  match verify_refresh_token db tok now with
  | none => .error (.http { status_code := 401, detail := "Invalid refresh token" })
  | some user =>
    .ok { access_token :=
            create_access_token { sub := toString user.id, username := user.username }
              now (some (ACCESS_TOKEN_EXPIRE_MINUTES * 60)),
          refresh_token := tok, token_type := "bearer",
          expires_in := ACCESS_TOKEN_EXPIRE_MINUTES * 60 }

/-- `POST /auth/logout` (the authenticated caller plays no role in the
body).  Revocation commits before the check, but the failing branch can
only be reached when the revoke was a no-op. -/
def logout (db : DB) (tok : Jwt) : DB × Except Err String :=
  let revoked := revoke_refresh_token db tok
  if revoked.2 then (revoked.1, .ok "Successfully logged out")
  else (revoked.1, .error (.http { status_code := 400, detail := "Invalid refresh token" }))

/-- `PUT /auth/change-password` for the authenticated `current_user`
(after pydantic strength validation of `new_password`).  Returns the
session state alongside the outcome so that atomicity on failure is
visible. -/
def change_password (db : DB) (current_user : User)
    (current_password new_password : String) (salt : Nat) :
    DB × Except Err String :=
  match verify_password current_password current_user.password_hash with
  | .error e => (db, .error (.passlib e))
  | .ok false =>
    (db, .error (.http { status_code := 400, detail := "Current password is incorrect" }))
  | .ok true =>
    match verify_password new_password current_user.password_hash with
    | .error e => (db, .error (.passlib e))
    | .ok true =>
      (db, .error (.http
        { status_code := 400,
          detail := "New password must be different from current password" }))
    | .ok false =>
      let updated := { current_user with password_hash := hash_password salt new_password }
      ({ db with users := db.users.map (fun u => if u.id == current_user.id then updated else u) },
       .ok "Password changed successfully")

/-- `GET /auth/me` for the authenticated `current_user`. -/
def get_profile (current_user : User) : UserProfileResponse :=
  { user := UserOut.from_orm current_user }

/-- `PUT /auth/profile` for the authenticated `current_user`: mutates only
the display name. -/
def update_profile (db : DB) (current_user : User) (full_name : Option String) :
    DB × UserProfileResponse :=
  let updated := { current_user with full_name := full_name }
  ({ db with users := db.users.map (fun u => if u.id == current_user.id then updated else u) },
   { user := UserOut.from_orm updated })

/-! ### Streaming gate (`be/routers/charts.py`)

The effects the endpoint coroutine performs on and around the websocket
are recorded as an ordered action trace, up to the start of the receive
loop (the loop is reached only on the fully-admitted path). -/

inductive WsAction where
  | accept
  | close (code : Nat)
  | send (text : String)
  | addConnection (chart_type : String)
  | setConnectionInterval (ms : Nat)
  | startDataSender
deriving DecidableEq

def WS_1008_POLICY_VIOLATION : Nat := 1008

/-- `authenticate_websocket(websocket, token)`: false when no token was
presented (`Query(None)` or empty) or when `verify_token(token, "access")`
returns None. -/
def authenticate_websocket (token : Option Jwt) (now : Nat) : Bool :=
  match token with
  | none => false
  | some t => (verify_token t "access" now).isSome

/-- `websocket_chart_endpoint(websocket, chart_type, token)` — the ordered
trace of actions up to (and including) admitting the connection. -/
def websocket_chart_endpoint (chart_type : String) (token : Option Jwt) (now : Nat) :
    List WsAction :=
  if chart_type ∉ ["line", "pie", "bar"] then
    [.close WS_1008_POLICY_VIOLATION]
  else
    .accept ::
      (if !authenticate_websocket token now then
        [.close WS_1008_POLICY_VIOLATION]
      else
        [.addConnection chart_type, .setConnectionInterval 2000, .startDataSender])

/-! ### Refresh-token store operation language (for the temporal claims)

The only operations of the system that write the `refresh_tokens` table
are `store_refresh_token` (called by login) and `revoke_refresh_token`
(called by logout); refresh reuses the token and writes nothing. -/

inductive StoreOp where
  | store (user_id : Nat) (tok : Jwt) (now : Nat)
  | revoke (tok : Jwt)
deriving DecidableEq

/-- One write against the token store.  A failed decode inside
`store_refresh_token` leaves the session unchanged. -/
def applyOp (db : DB) : StoreOp → DB
  | .store uid tok now =>
    match store_refresh_token db uid tok now with
    | .ok db' => db'
    | .error _ => db
  | .revoke tok => (revoke_refresh_token db tok).1

def runOps (db : DB) : List StoreOp → DB
  | [] => db
  | op :: ops => runOps (applyOp db op) ops

/-- Whether an operation inserts a row whose hash equals `h`. -/
def opStoresHash (h : Jwt) : StoreOp → Bool
  | .store _ tok _ => hash_token tok == h
  | .revoke _ => false

/-! ### Sample data used by the concrete witnesses -/

def sampleUser : User :=
  { id := 1, username := "alice", email := "alice@x.com",
    password_hash := .bcrypt 0 "Abcd123!", full_name := none,
    created_at := 0, is_active := true }

def samplePayload : JwtPayload :=
  { sub := "1", username := "alice", type := some "access", iat := 0, exp := 900 }

/-- The row `register` inserts for the sample registration input. -/
def sampleRegisteredUser : User :=
  { id := 1, username := "alice", email := "alice@x.com",
    password_hash := hash_password 0 "Abcd123!", full_name := none,
    created_at := 0, is_active := true }

/-! ### Theorems -/

/-- C2: for every token and expected type, `verify_token` is total and
returns `none` (rather than raising) when the token is malformed, the
signature is invalid, the token is expired, or the embedded type
discriminator differs from the expected type; in particular a token issued
as `access` never verifies as `refresh` and vice versa, at any clock. -/
theorem verify_token_total_and_type_strict_c2 (now : Nat) (expected_type : String) :
    (∀ s, verify_token (.malformed s) expected_type now = none) ∧
    (∀ p k, k ≠ SECRET_KEY → verify_token (.signed p k) expected_type now = none) ∧
    (∀ p, p.exp < now → verify_token (.signed p SECRET_KEY) expected_type now = none) ∧
    (∀ tok p, verify_token tok expected_type now = some p → p.type = some expected_type) ∧
    (∀ d iat ttl now', verify_token (create_access_token d iat ttl) "refresh" now' = none) ∧
    (∀ d iat ttl now', verify_token (create_refresh_token d iat ttl) "access" now' = none) := by
  refine ⟨fun s => rfl, fun p k hk => ?_, fun p hexp => ?_, fun tok p hv => ?_,
    fun d iat ttl now' => ?_, fun d iat ttl now' => ?_⟩
  · simp [verify_token, jwtDecode, hk]
  · simp [verify_token, jwtDecode, hexp]
  · unfold verify_token at hv
    split at hv
    · exact absurd hv (by simp)
    · rename_i payload heq
      by_cases hty : payload.type ≠ some expected_type
      · simp [hty] at hv
      · simp [hty] at hv
        simp only [← hv]
        simpa using hty
  · unfold verify_token create_access_token jwtEncode
    split
    · rfl
    · rename_i payload heq
      unfold jwtDecode at heq
      simp only [ne_eq, not_true_eq_false, if_false] at heq
      split at heq
      · exact absurd heq (by simp)
      · simp only [Except.ok.injEq] at heq
        simp [← heq]
  · unfold verify_token create_refresh_token jwtEncode
    split
    · rfl
    · rename_i payload heq
      unfold jwtDecode at heq
      simp only [ne_eq, not_true_eq_false, if_false] at heq
      split at heq
      · exact absurd heq (by simp)
      · simp only [Except.ok.injEq] at heq
        simp [← heq]

/-- Witness for C2 at a concrete wrongly-signed token. -/
theorem verify_token_total_and_type_strict_c2_witness :
    verify_token (.signed samplePayload "wrong-key") "access" 0 = none :=
  (verify_token_total_and_type_strict_c2 0 "access").2.1 samplePayload "wrong-key" (by decide)

/-- C6: for every claim set and TTL, the issued token embeds the subject,
the username, the type discriminator (`access` for the access factory,
`refresh` for the refresh factory), the issued-at instant, and an expiry
equal to `issued_at + ttl` exactly (with the configured default when no
TTL is passed), signed with the process-wide secret. -/
theorem issued_token_embeds_claims_c6 (d : TokenData) (now ttl : Nat) :
    create_access_token d now (some ttl) =
      .signed { sub := d.sub, username := d.username, type := some "access",
                iat := now, exp := now + ttl } SECRET_KEY ∧
    create_refresh_token d now (some ttl) =
      .signed { sub := d.sub, username := d.username, type := some "refresh",
                iat := now, exp := now + ttl } SECRET_KEY ∧
    create_access_token d now none =
      .signed { sub := d.sub, username := d.username, type := some "access",
                iat := now, exp := now + ACCESS_TOKEN_EXPIRE_MINUTES * 60 } SECRET_KEY ∧
    create_refresh_token d now none =
      .signed { sub := d.sub, username := d.username, type := some "refresh",
                iat := now, exp := now + REFRESH_TOKEN_EXPIRE_DAYS * 24 * 60 * 60 } SECRET_KEY :=
  ⟨rfl, rfl, rfl, rfl⟩

/-- C4 counterexample: on a malformed digest, `verify_password` propagates
passlib's `UnknownHashError` instead of returning false — the claim that
it never raises and returns false on malformed digests is violated. -/
theorem verify_password_raises_on_malformed_c4 :
    verify_password "Abcd123!" (.malformed "not-a-hash") = .error .unknownHash ∧
    verify_password "Abcd123!" (.malformed "not-a-hash") ≠ .ok false :=
  ⟨rfl, by simp [verify_password, cryptContext_verify]⟩

/-- C4 amended: `verify_password` never raises on a digest that passlib
can identify (a bcrypt digest) — there it returns a boolean — but on a
malformed digest it raises `UnknownHashError` rather than returning
false. -/
theorem verify_password_error_behaviour_c4 (p : String) (d : Digest) :
    (∀ salt pw, d = .bcrypt salt pw → verify_password p d = .ok (pw == p)) ∧
    (∀ s, d = .malformed s → verify_password p d = .error .unknownHash) := by
  constructor
  · intro salt pw hd
    simp [hd, verify_password, cryptContext_verify]
  · intro s hd
    simp [hd, verify_password, cryptContext_verify]

/-- Witness for C4 (amended) at a concrete well-formed digest. -/
theorem verify_password_error_behaviour_c4_witness :
    verify_password "Abcd123!" (.bcrypt 3 "secret") = .ok ("secret" == "Abcd123!") :=
  (verify_password_error_behaviour_c4 "Abcd123!" (.bcrypt 3 "secret")).1 3 "secret" rfl

/-- C9: the public user projection exposes exactly id, username, email,
display name, creation timestamp and active flag — it carries no password
hash information (it is invariant under the stored hash) — and Register,
Profile and UpdateProfile all return values built from that projection. -/
theorem public_projection_never_includes_hash_c9 :
    (∀ u : User, UserOut.from_orm u =
      { id := u.id, username := u.username, email := u.email,
        full_name := u.full_name, created_at := u.created_at,
        is_active := u.is_active }) ∧
    (∀ (u : User) (d d' : Digest),
      UserOut.from_orm { u with password_hash := d } =
      UserOut.from_orm { u with password_hash := d' }) ∧
    (∀ db uname email pw fn salt nid now db' out,
      register db uname email pw fn salt nid now = .ok (db', out) →
      out = UserOut.from_orm
        { id := nid, username := uname, email := email,
          password_hash := hash_password salt pw, full_name := fn,
          created_at := now, is_active := true }) ∧
    (∀ u : User, get_profile u = { user := UserOut.from_orm u }) ∧
    (∀ (db : DB) (u : User) (fn : Option String),
      (update_profile db u fn).2 = { user := UserOut.from_orm { u with full_name := fn } }) := by
  refine ⟨fun u => rfl, fun u d d' => rfl, ?_, fun u => rfl, fun db u fn => rfl⟩
  intro db uname email pw fn salt nid now db' out hreg
  unfold register at hreg
  split at hreg
  · exact absurd hreg (by simp)
  · split at hreg
    · exact absurd hreg (by simp)
    · simp only [Except.ok.injEq, Prod.mk.injEq] at hreg
      exact hreg.2.symm

/-! Abbreviations for the values a successful login computes, used to
state output equalities without giant literals. -/

def issuedAccessToken (u : User) (now : Nat) : Jwt :=
  create_access_token { sub := toString u.id, username := u.username } now
    (some (ACCESS_TOKEN_EXPIRE_MINUTES * 60))

def issuedRefreshToken (u : User) (now : Nat) : Jwt :=
  create_refresh_token { sub := toString u.id, username := u.username } now none

def loginStoredRow (u : User) (now : Nat) : RefreshToken :=
  { user_id := u.id, token_hash := issuedRefreshToken u now,
    expires_at := now + REFRESH_TOKEN_EXPIRE_DAYS * 24 * 60 * 60,
    created_at := now, is_revoked := false }

def loginSuccess (db : DB) (u : User) (now : Nat) : DB × TokenResponse :=
  ({ db with tokens := db.tokens ++ [loginStoredRow u now] },
   { access_token := issuedAccessToken u now,
     refresh_token := issuedRefreshToken u now,
     token_type := "bearer", expires_in := ACCESS_TOKEN_EXPIRE_MINUTES * 60 })

/-- On a correct username/password pair for an active user whose stored
digest is well-formed, `login` succeeds, returning both tokens and
appending the refresh-token row. -/
theorem login_ok_of_valid (db : DB) (u : User) (pw : String) (now salt : Nat)
    (hfind : db.users.find? (fun v => v.username == u.username) = some u)
    (hact : u.is_active = true)
    (hhash : u.password_hash = .bcrypt salt pw) :
    login db u.username pw now = .ok (loginSuccess db u now) := by
  have hnl : ¬ (now + REFRESH_TOKEN_EXPIRE_DAYS * 24 * 60 * 60 < now) := by omega
  simp [login, authenticate_user, hfind, hact, hhash, verify_password,
    cryptContext_verify, store_refresh_token, jwtDecode, hash_token, hnl,
    loginSuccess, loginStoredRow, issuedAccessToken, issuedRefreshToken,
    create_refresh_token, jwtEncode]

/-- Witness for C9 at a concrete successful registration. -/
theorem public_projection_never_includes_hash_c9_witness :
    UserOut.from_orm sampleRegisteredUser = UserOut.from_orm sampleRegisteredUser :=
  (public_projection_never_includes_hash_c9).2.2.1 { users := [], tokens := [] }
    "alice" "alice@x.com" "Abcd123!" none 0 1 0
    { users := [sampleRegisteredUser], tokens := [] }
    (UserOut.from_orm sampleRegisteredUser)
    rfl

/-- C3: the three login failure causes — unknown username, inactive user,
and wrong password for an active user — all yield the identical outward
error (status 400, detail "Incorrect username or password"), so a caller
cannot tell which occurred. -/
theorem login_failures_indistinguishable_c3 (db : DB) (username password : String) (now : Nat) :
    (db.users.find? (fun u => u.username == username) = none →
      login db username password now =
        .error (.http { status_code := 400, detail := "Incorrect username or password" })) ∧
    (∀ u, db.users.find? (fun u => u.username == username) = some u →
      u.is_active = false →
      login db username password now =
        .error (.http { status_code := 400, detail := "Incorrect username or password" })) ∧
    (∀ u salt pw, db.users.find? (fun u => u.username == username) = some u →
      u.is_active = true → u.password_hash = .bcrypt salt pw → pw ≠ password →
      login db username password now =
        .error (.http { status_code := 400, detail := "Incorrect username or password" })) := by
  refine ⟨fun hfind => ?_, fun u hfind hin => ?_, fun u salt pw hfind hact hhash hne => ?_⟩
  · simp [login, authenticate_user, hfind]
  · simp [login, authenticate_user, hfind, hin]
  · have hb : (pw == password) = false := beq_eq_false_iff_ne.mpr hne
    simp [login, authenticate_user, hfind, hact, hhash, verify_password,
      cryptContext_verify, hb]

def sampleDb : DB := { users := [sampleUser], tokens := [] }

/-- Witness for C3: wrong password for the concrete active sample user. -/
theorem login_failures_indistinguishable_c3_witness :
    login sampleDb "alice" "wrong-pw" 0 =
      .error (.http { status_code := 400, detail := "Incorrect username or password" }) :=
  (login_failures_indistinguishable_c3 sampleDb "alice" "wrong-pw" 0).2.2
    sampleUser 0 "Abcd123!" rfl rfl rfl (by decide)

/-- C7: ChangePassword is atomic on failure and enforces distinctness:
with a wrong current password it fails with the invalid-credentials error
and the session (hence the stored hash) is unchanged, so login with the
old password still succeeds; and when the new password verifies against
the stored hash (equals the current clear password) it fails with the
must-differ error, again leaving the session unchanged. -/
theorem change_password_atomic_and_distinct_c7 (db : DB) (u : User)
    (cur newPw pw : String) (salt saltStored : Nat) (now : Nat)
    (hhash : u.password_hash = .bcrypt saltStored pw)
    (hfind : db.users.find? (fun v => v.username == u.username) = some u)
    (hact : u.is_active = true) :
    (cur ≠ pw →
      change_password db u cur newPw salt =
        (db, .error (.http { status_code := 400, detail := "Current password is incorrect" })) ∧
      login db u.username pw now = .ok (loginSuccess db u now)) ∧
    (cur = pw → newPw = pw →
      change_password db u cur newPw salt =
        (db, .error (.http
          { status_code := 400,
            detail := "New password must be different from current password" }))) := by
  constructor
  · intro hne
    have hb : (pw == cur) = false := beq_eq_false_iff_ne.mpr (fun h => hne h.symm)
    exact ⟨by simp [change_password, verify_password, cryptContext_verify, hhash, hb],
      login_ok_of_valid db u pw now saltStored hfind hact hhash⟩
  · intro hcur hnew
    subst hcur
    subst hnew
    simp [change_password, verify_password, cryptContext_verify, hhash]

/-- Witness for C7: wrong current password at the concrete sample user. -/
theorem change_password_atomic_and_distinct_c7_witness :
    change_password sampleDb sampleUser "wrong-pw" "NewPass1!" 7 =
      (sampleDb, .error (.http { status_code := 400, detail := "Current password is incorrect" })) ∧
    login sampleDb "alice" "Abcd123!" 0 = .ok (loginSuccess sampleDb sampleUser 0) :=
  (change_password_atomic_and_distinct_c7 sampleDb sampleUser "wrong-pw" "NewPass1!"
    "Abcd123!" 7 0 0 rfl rfl rfl).1 (by decide)

/-- C10: Refresh does not consult the account's active flag: for an
inactive user holding a refresh token whose stored row is unrevoked and
unexpired, Refresh succeeds and issues a new access token, while Login
for the same user fails with the invalid-credentials error for every
password. -/
theorem refresh_ignores_inactive_c10 (db : DB) (p : JwtPayload) (now : Nat)
    (r : RefreshToken) (u : User)
    (htype : p.type = some "refresh")
    (hexp : ¬ p.exp < now)
    (hrec : db.tokens.find? (fun row =>
      row.token_hash == hash_token (.signed p SECRET_KEY) && !row.is_revoked &&
      decide (now < row.expires_at)) = some r)
    (huser : db.users.find? (fun v => v.id == r.user_id) = some u)
    (hinactive : u.is_active = false)
    (hname : db.users.find? (fun v => v.username == u.username) = some u) :
    refresh_token db (.signed p SECRET_KEY) now =
      .ok { access_token := issuedAccessToken u now,
            refresh_token := .signed p SECRET_KEY,
            token_type := "bearer",
            expires_in := ACCESS_TOKEN_EXPIRE_MINUTES * 60 } ∧
    (∀ password, login db u.username password now =
      .error (.http { status_code := 400, detail := "Incorrect username or password" })) := by
  constructor
  · simp [refresh_token, verify_refresh_token, jwtDecode, hexp, htype, hrec, huser,
      issuedAccessToken]
  · intro password
    simp [login, authenticate_user, hname, hinactive]

def inactiveUser : User :=
  { id := 2, username := "bob", email := "bob@x.com",
    password_hash := .bcrypt 0 "Bcde234!", full_name := none,
    created_at := 0, is_active := false }

def inactivePayload : JwtPayload :=
  { sub := "2", username := "bob", type := some "refresh", iat := 0, exp := 1000 }

def inactiveRow : RefreshToken :=
  { user_id := 2, token_hash := .signed inactivePayload SECRET_KEY,
    expires_at := 1000, created_at := 0, is_revoked := false }

def inactiveDb : DB := { users := [inactiveUser], tokens := [inactiveRow] }

/-- Witness for C10: the concrete inactive user's refresh succeeds. -/
theorem refresh_ignores_inactive_c10_witness :
    refresh_token inactiveDb (.signed inactivePayload SECRET_KEY) 5 =
      .ok { access_token := issuedAccessToken inactiveUser 5,
            refresh_token := .signed inactivePayload SECRET_KEY,
            token_type := "bearer",
            expires_in := ACCESS_TOKEN_EXPIRE_MINUTES * 60 } :=
  (refresh_ignores_inactive_c10 inactiveDb inactivePayload 5 inactiveRow inactiveUser
    rfl (by decide) (by decide) (by decide) rfl (by decide)).1

/-- C8: with a supported chart type, the gate accepts the transport-level
connection first and, when the token is absent or fails access-token
verification, then closes with the policy-violation code having sent no
payload, added nothing to the connection registry, and started no
delivery task. -/
theorem streaming_gate_rejects_before_work_c8 (chart_type : String)
    (token : Option Jwt) (now : Nat)
    (hct : chart_type ∈ ["line", "pie", "bar"])
    (htok : token = none ∨ ∃ t, token = some t ∧ verify_token t "access" now = none) :
    websocket_chart_endpoint chart_type token now =
      [.accept, .close WS_1008_POLICY_VIOLATION] ∧
    (∀ s, WsAction.send s ∉ websocket_chart_endpoint chart_type token now) ∧
    (∀ ct, WsAction.addConnection ct ∉ websocket_chart_endpoint chart_type token now) ∧
    WsAction.startDataSender ∉ websocket_chart_endpoint chart_type token now := by
  have hauth : authenticate_websocket token now = false := by
    rcases htok with h | ⟨t, ht, hv⟩
    · simp [authenticate_websocket, h]
    · simp [authenticate_websocket, ht, hv]
  have htrace : websocket_chart_endpoint chart_type token now =
      [.accept, .close WS_1008_POLICY_VIOLATION] := by
    simp [websocket_chart_endpoint, hct, hauth]
  refine ⟨htrace, fun s => ?_, fun ct => ?_, ?_⟩ <;> simp [htrace]

/-- Witness for C8: a line-chart connection with no token presented. -/
theorem streaming_gate_rejects_before_work_c8_witness :
    websocket_chart_endpoint "line" none 0 =
      [.accept, .close WS_1008_POLICY_VIOLATION] :=
  (streaming_gate_rejects_before_work_c8 "line" none 0 (by decide) (Or.inl rfl)).1

/-! ### Revocation (C5, C1) -/

/-- `revokeFirst` finds no row exactly when a lookup by hash alone finds
no row. -/
theorem revokeFirst_eq_none_iff (h : Jwt) (l : List RefreshToken) :
    revokeFirst h l = none ↔ l.find? (fun r => r.token_hash == h) = none := by
  induction l with
  | nil => simp [revokeFirst]
  | cons r rs ih =>
    by_cases hm : (r.token_hash == h) = true
    · simp [revokeFirst, List.find?_cons, hm]
    · simp [revokeFirst, List.find?_cons, hm, ih]

def revokedRow : RefreshToken := { inactiveRow with is_revoked := true }

def revokedDb : DB := { users := [inactiveUser], tokens := [revokedRow] }

/-- C5 counterexample: in a store whose only row for the token's hash is
already revoked, no unrevoked matching record exists, yet logout succeeds
instead of failing with the invalid-token error. -/
theorem logout_already_revoked_succeeds_c5 :
    revokedDb.tokens.all (fun r =>
      !(r.token_hash == hash_token (.signed inactivePayload SECRET_KEY) &&
        !r.is_revoked)) = true ∧
    (logout revokedDb (.signed inactivePayload SECRET_KEY)).2 =
      .ok "Successfully logged out" := by
  constructor <;> rfl

/-- C5 amended: logout fails with the invalid-token error exactly when no
stored record with the token's hash exists at all, regardless of the
revoked flag — logging out with an already-revoked token succeeds. -/
theorem logout_fails_iff_no_matching_record_c5 (db : DB) (tok : Jwt) :
    (logout db tok).2 =
      .error (.http { status_code := 400, detail := "Invalid refresh token" }) ↔
    db.tokens.find? (fun r => r.token_hash == hash_token tok) = none := by
  rw [← revokeFirst_eq_none_iff]
  unfold logout revoke_refresh_token
  rcases hrf : revokeFirst (hash_token tok) db.tokens with _ | ts <;> simp [hrf]

def c1Tok : Jwt := create_refresh_token { sub := "1", username := "alice" } 0 none

def c1DbStart : DB := { users := [sampleUser], tokens := [] }

def c1Db : DB := runOps c1DbStart [.store 1 c1Tok 0, .store 1 c1Tok 0]

/-- C1 counterexample: two logins in the same second issue the identical
raw refresh token and store its hash twice; revoke marks only the first
row, so immediately after a successful revoke (with no operations in
between) resolve still returns the user via the second, unrevoked row. -/
theorem revocation_not_monotonic_c1 :
    (revoke_refresh_token c1Db c1Tok).2 = true ∧
    verify_refresh_token (runOps (revoke_refresh_token c1Db c1Tok).1 []) c1Tok 5 =
      some sampleUser := by
  constructor <;> rfl

/-- Every row of the revoked list either was a row of the input or is an
input row with its revoked flag set. -/
theorem mem_of_revokeFirst (h : Jwt) (l l' : List RefreshToken)
    (hrf : revokeFirst h l = some l') :
    ∀ r' ∈ l', r' ∈ l ∨ ∃ r ∈ l, r' = { r with is_revoked := true } := by
  induction l generalizing l' with
  | nil => simp [revokeFirst] at hrf
  | cons a as ih =>
    unfold revokeFirst at hrf
    by_cases hm : (a.token_hash == h) = true
    · simp only [hm, if_true, Option.some.injEq] at hrf
      subst hrf
      intro r' hr'
      rcases List.mem_cons.mp hr' with h1 | h1
      · exact Or.inr ⟨a, List.mem_cons_self a as, h1⟩
      · exact Or.inl (List.mem_cons_of_mem a h1)
    · simp only [hm, if_false] at hrf
      obtain ⟨as', hrf', rfl⟩ := Option.map_eq_some'.mp hrf
      intro r' hr'
      rcases List.mem_cons.mp hr' with h1 | h1
      · exact Or.inl (h1 ▸ List.mem_cons_self a as)
      · rcases ih as' hrf' r' h1 with h2 | ⟨r, hr, h2⟩
        · exact Or.inl (List.mem_cons_of_mem a h2)
        · exact Or.inr ⟨r, List.mem_cons_of_mem a hr, h2⟩

/-- After a successful revoke on a list in which at most one row carries
the hash, every row carrying the hash is revoked. -/
theorem allRevoked_of_revokeFirst (h : Jwt) (l l' : List RefreshToken)
    (hcount : l.countP (fun r => r.token_hash == h) ≤ 1)
    (hrf : revokeFirst h l = some l') :
    ∀ r ∈ l', r.token_hash = h → r.is_revoked = true := by
  induction l generalizing l' with
  | nil => simp [revokeFirst] at hrf
  | cons a as ih =>
    unfold revokeFirst at hrf
    rw [List.countP_cons] at hcount
    by_cases hm : (a.token_hash == h) = true
    · simp only [hm, if_true, Option.some.injEq] at hrf
      subst hrf
      have hcnt0 : as.countP (fun r => r.token_hash == h) = 0 := by
        simp only [hm, if_true] at hcount
        omega
      have hnone : ∀ r ∈ as, ¬ ((fun r : RefreshToken => r.token_hash == h) r = true) :=
        List.countP_eq_zero.mp hcnt0
      intro r hr hh
      rcases List.mem_cons.mp hr with h1 | h1
      · subst h1; rfl
      · exact absurd (beq_iff_eq.mpr hh) (hnone r h1)
    · simp only [hm, if_false] at hrf
      obtain ⟨as', hrf', rfl⟩ := Option.map_eq_some'.mp hrf
      have hcount' : as.countP (fun r => r.token_hash == h) ≤ 1 := by
        simp only [hm, if_false] at hcount
        omega
      intro r hr hh
      rcases List.mem_cons.mp hr with h1 | h1
      · exact absurd (beq_iff_eq.mpr (h1 ▸ hh)) (by simp [hm])
      · exact ih as' hcount' hrf' r h1 hh

/-- Shape of the token table after a store operation: unchanged (failed
decode) or extended by one fresh unrevoked row carrying the stored hash. -/
theorem applyOp_store_tokens (db : DB) (uid : Nat) (tok : Jwt) (now : Nat) :
    (applyOp db (.store uid tok now)).tokens = db.tokens ∨
    ∃ row, (applyOp db (.store uid tok now)).tokens = db.tokens ++ [row] ∧
      row.token_hash = hash_token tok ∧ row.is_revoked = false := by
  unfold applyOp store_refresh_token
  rcases hdec : jwtDecode tok SECRET_KEY now with e | payload <;> simp [hdec]

/-- A write that does not insert a row with hash `h` preserves the
every-matching-row-revoked invariant. -/
theorem allRevoked_applyOp (h : Jwt) (db : DB) (op : StoreOp)
    (hop : opStoresHash h op = false)
    (hinv : ∀ r ∈ db.tokens, r.token_hash = h → r.is_revoked = true) :
    ∀ r ∈ (applyOp db op).tokens, r.token_hash = h → r.is_revoked = true := by
  cases op with
  | store uid tok now =>
    rcases applyOp_store_tokens db uid tok now with heq | ⟨row, heq, hrow, _⟩
    · rw [heq]; exact hinv
    · rw [heq]
      intro r hr hh
      rcases List.mem_append.mp hr with h1 | h1
      · exact hinv r h1 hh
      · have : r = row := by simpa using h1
        subst this
        exact absurd (hrow ▸ hh) (by simpa [opStoresHash, beq_iff_eq] using hop)
  | revoke tok' =>
    unfold applyOp revoke_refresh_token
    rcases hrf : revokeFirst (hash_token tok') db.tokens with _ | ts <;> simp [hrf]
    · exact hinv
    · intro r hr hh
      rcases mem_of_revokeFirst (hash_token tok') db.tokens ts hrf r hr with h1 | ⟨_, _, h1⟩
      · exact hinv r h1 hh
      · subst h1; rfl

/-- The invariant survives any sequence of writes none of which stores a
token carrying the hash. -/
theorem allRevoked_runOps (h : Jwt) (db : DB) (ops : List StoreOp)
    (hops : ops.all (fun op => !opStoresHash h op) = true)
    (hinv : ∀ r ∈ db.tokens, r.token_hash = h → r.is_revoked = true) :
    ∀ r ∈ (runOps db ops).tokens, r.token_hash = h → r.is_revoked = true := by
  induction ops generalizing db with
  | nil => exact hinv
  | cons op ops ih =>
    rw [List.all_cons, Bool.and_eq_true] at hops
    obtain ⟨h1, h2⟩ := hops
    exact ih (applyOp db op) h2
      (allRevoked_applyOp h db op (by simpa using h1) hinv)

/-- When every row carrying the token's hash is revoked, resolution
returns none. -/
theorem resolve_none_of_allRevoked (db : DB) (tok : Jwt) (now : Nat)
    (hinv : ∀ r ∈ db.tokens, r.token_hash = hash_token tok → r.is_revoked = true) :
    verify_refresh_token db tok now = none := by
  unfold verify_refresh_token
  split
  · rfl
  · rename_i payload heq
    by_cases hty : payload.type ≠ some "refresh"
    · rw [if_pos hty]
    · rw [if_neg hty]
      have hfind : db.tokens.find? (fun r =>
          r.token_hash == hash_token tok && !r.is_revoked &&
          decide (now < r.expires_at)) = none := by
        rw [List.find?_eq_none]
        intro r hr
        by_cases hh : r.token_hash = hash_token tok
        · simp [hinv r hr hh]
        · simp [beq_eq_false_iff_ne.mpr hh]
      rw [hfind]

/-- Position-wise, revoking never clears a revoked flag. -/
theorem revokeFirst_getElem_monotone (h : Jwt) (l l' : List RefreshToken)
    (hrf : revokeFirst h l = some l') (i : Nat) (r r' : RefreshToken)
    (hi : l[i]? = some r) (hrev : r.is_revoked = true) (hi' : l'[i]? = some r') :
    r'.is_revoked = true := by
  induction l generalizing l' i with
  | nil => simp [revokeFirst] at hrf
  | cons a as ih =>
    unfold revokeFirst at hrf
    by_cases hm : (a.token_hash == h) = true
    · simp only [hm, if_true, Option.some.injEq] at hrf
      subst hrf
      cases i with
      | zero =>
        simp only [List.getElem?_cons_zero, Option.some.injEq] at hi'
        subst hi'
        rfl
      | succ n =>
        simp only [List.getElem?_cons_succ] at hi hi'
        rw [hi] at hi'
        cases hi'
        exact hrev
    · simp only [hm, if_false] at hrf
      obtain ⟨as', hrf', rfl⟩ := Option.map_eq_some'.mp hrf
      cases i with
      | zero =>
        simp only [List.getElem?_cons_zero, Option.some.injEq] at hi hi'
        subst hi
        subst hi'
        exact hrev
      | succ n =>
        simp only [List.getElem?_cons_succ] at hi hi'
        exact ih as' hrf' n hi hi'

/-- C1 amended: no operation ever sets a revoked row back to unrevoked;
and once revoke of a token has succeeded, every subsequent resolve of
that token returns none, provided the token's hash matched at most one
stored row at revocation time and no intervening operation stores a token
with the same hash again (two logins in the same second can violate both
provisos, see the counterexample). -/
theorem revocation_monotonic_amended_c1 (db : DB) (tok : Jwt) (ops : List StoreOp) (now : Nat)
    (hunique : db.tokens.countP (fun r => r.token_hash == hash_token tok) ≤ 1)
    (hrev : (revoke_refresh_token db tok).2 = true)
    (hops : ops.all (fun op => !opStoresHash (hash_token tok) op) = true) :
    verify_refresh_token (runOps (revoke_refresh_token db tok).1 ops) tok now = none ∧
    (∀ (db' : DB) (op : StoreOp) (i : Nat) (r r' : RefreshToken),
      db'.tokens[i]? = some r → r.is_revoked = true →
      (applyOp db' op).tokens[i]? = some r' → r'.is_revoked = true) := by
  constructor
  · unfold revoke_refresh_token at hrev ⊢
    rcases hrf : revokeFirst (hash_token tok) db.tokens with _ | ts
    · rw [hrf] at hrev; simp at hrev
    · exact resolve_none_of_allRevoked _ tok now
        (allRevoked_runOps (hash_token tok) _ ops hops
          (allRevoked_of_revokeFirst (hash_token tok) db.tokens ts hunique hrf))
  · intro db' op i r r' hi hrevd hi'
    cases op with
    | store uid tok2 now2 =>
      rcases applyOp_store_tokens db' uid tok2 now2 with heq | ⟨row, heq, _, _⟩
      · rw [heq, hi] at hi'
        cases hi'
        exact hrevd
      · rw [heq, List.getElem?_append_left (List.getElem?_eq_some.mp hi).1, hi] at hi'
        cases hi'
        exact hrevd
    | revoke tok2 =>
      simp only [applyOp, revoke_refresh_token] at hi'
      rcases hrf : revokeFirst (hash_token tok2) db'.tokens with _ | ts
      · rw [hrf] at hi'
        simp only at hi'
        rw [hi] at hi'
        cases hi'
        exact hrevd
      · rw [hrf] at hi'
        simp only at hi'
        exact revokeFirst_getElem_monotone (hash_token tok2) db'.tokens ts hrf i r r' hi hrevd hi'

def c1Row : RefreshToken :=
  { user_id := 1, token_hash := c1Tok,
    expires_at := REFRESH_TOKEN_EXPIRE_DAYS * 24 * 60 * 60,
    created_at := 0, is_revoked := false }

def c1SingleDb : DB := { users := [sampleUser], tokens := [c1Row] }

def c1OtherTok : Jwt := create_refresh_token { sub := "1", username := "alice" } 1 none

/-- Witness for C1 (amended): one stored row for the token, revoked, an
unrelated store afterwards — resolution stays none. -/
theorem revocation_monotonic_amended_c1_witness :
    verify_refresh_token
      (runOps (revoke_refresh_token c1SingleDb c1Tok).1 [.store 1 c1OtherTok 0])
      c1Tok 5 = none :=
  (revocation_monotonic_amended_c1 c1SingleDb c1Tok [.store 1 c1OtherTok 0] 5
    (by decide) (by decide) (by decide)).1

end Be
